import Mathlib

/-!
Verification development for the shadow/layover mask generation helpers
(`calcShadowLayover.py` and `calculate_shadow_layover.py`).

The Python functions are shallowly embedded: pure computations become Lean
functions over ℚ/ℤ/String, external collaborators (filesystem, DEM stitcher,
terrain-intersection engine, path absolutisation) become explicit function
parameters, and raised exceptions become `Except` errors.
-/

namespace ShadowLayover

/-- Model of Python `int()` applied to a real number: truncation toward zero,
i.e. floor for non-negative arguments and ceiling for negative ones. -/
def pyInt (q : ℚ) : ℤ := if 0 ≤ q then ⌊q⌋ else ⌈q⌉

/-- Model of Python `str.upper()` (ASCII case mapping). -/
def pyUpper (s : String) : String := ⟨s.data.map Char.toUpper⟩

/-- Model of Python `str.endswith(suff)`. -/
def strEndsWith (s suff : String) : Bool := suff.data.isSuffixOf s.data

/-- Model of Python truthiness of an `Optional[str]`: `None` and `""` are falsy. -/
def pyTruthyStr : Option String → Bool
  | none => false
  | some s => s ≠ ""

/-- Model of `os.path.join(d, f)` for POSIX paths with a single component. -/
def pathJoin (d f : String) : String :=
  if f.data.head? = some '/' then f
  else if d = "" ∨ d.data.getLast? = some '/' then d ++ f
  else d ++ "/" ++ f

/-- Model of the Python format `f"{n:02d}"`: zero-pad to width 2. -/
def fmt02 (n : ℤ) : String :=
  if 0 ≤ n ∧ n < 10 then "0" ++ toString n else toString n

/-- Bounding box in SNWE order: `(south, north, west, east)` in degrees. -/
abbrev BBox := ℚ × ℚ × ℚ × ℚ

/-- Embedding of the bbox-expansion line of `_ensure_dem`
(calculate_shadow_layover.py line 64):
`bbox_int = [int(south), int(north + 0.9999), int(west), int(east + 0.9999)]`. -/
def bbox_int_expand (bbox_snwe : BBox) : List ℤ :=
  [pyInt bbox_snwe.1,
   pyInt (bbox_snwe.2.1 + 9999 / 10000),
   pyInt bbox_snwe.2.2.1,
   pyInt (bbox_snwe.2.2.2 + 9999 / 10000)]

/-- Embedding of `_union_bbox` (calculate_shadow_layover.py lines 74-79):
component-wise min of souths and wests, max of norths and easts; `min`/`max`
over an empty generator raises, hence `none` on the empty list. -/
def union_bbox : List BBox → Option BBox
  | [] => none
  | b :: bs =>
      some ((bs.map (fun x => x.1)).foldl min b.1,
            (bs.map (fun x => x.2.1)).foldl max b.2.1,
            (bs.map (fun x => x.2.2.1)).foldl min b.2.2.1,
            (bs.map (fun x => x.2.2.2)).foldl max b.2.2.2)

/-- The bounding-box union specialised to two boxes, as computed by
`_union_bbox([a, b])`. -/
def bbox_union2 (a b : BBox) : BBox :=
  (min a.1 b.1, max a.2.1 b.2.1, min a.2.2.1 b.2.2.1, max a.2.2.2 b.2.2.2)

/-- Errors raised by the embedded functions of calcShadowLayover.py
(`ValueError` / `FileNotFoundError` / `RuntimeError` in the source). -/
inductive PipelineError
  | invalidBurstRange (start stop n : ℤ)
  | unsupportedInterpolation (method : String)
  | demXmlNotFound (xml_path : String)
  | unsupportedReader
  | emptyResult
deriving DecidableEq

/-- Per-burst metadata fields read by `_prepare_geometry_tasks`
(calcShadowLayover.py lines 131-150). `orbit` and `sensingStart` are opaque
handles. -/
structure BurstRecord where
  numberOfSamples : ℤ
  numberOfLines : ℤ
  rangePixelSize : ℚ
  azimuthTimeInterval : ℚ
  radarWavelength : ℚ
  orbit : ℕ
  sensingStart : ℕ
  startingRange : ℚ
  polarization : Option String
deriving DecidableEq

/-- Whole-frame metadata read through the frame/instrument/platform accessors
(calcShadowLayover.py lines 152-178). -/
structure FrameRecord where
  numberOfSamples : ℤ
  numberOfLines : ℤ
  rangePixelSize : ℚ
  pulseRepetitionFrequency : ℚ
  radarWavelength : ℚ
  orbit : ℕ
  sensingStart : ℕ
  startingRange : ℚ
  pointingDirection : ℤ
  polarization : Option String
deriving DecidableEq

/-- A parsed sensor reader, reduced to the duck-typed shape
`_prepare_geometry_tasks` probes: `bursts = none` covers a missing `product`
attribute, a missing `bursts` attribute and `bursts = None`; `frame = none`
covers a missing or `None` frame. -/
structure Reader where
  family : Option String
  bursts : Option (List BurstRecord)
  frame : Option FrameRecord
deriving DecidableEq

/-- The `GeometryTask` dataclass (calcShadowLayover.py lines 17-32). -/
structure GeometryTask where
  label : String
  tag : String
  width : ℤ
  length : ℤ
  range_pixel_spacing : ℚ
  prf : ℚ
  radar_wavelength : ℚ
  orbit : ℕ
  sensing_start : ℕ
  range_first_sample : ℚ
  look_side : ℤ
  polarization : Option String
deriving DecidableEq

/-- The `meta` dictionary assembled by `_prepare_geometry_tasks`. -/
structure Meta where
  sensor : Option String
  polarization : Option String
deriving DecidableEq

/-- Pair each list element with a counter starting at `i`
(Python `enumerate(xs, start=i)`). -/
def enumFrom : ℤ → List α → List (ℤ × α)
  | _, [] => []
  | i, b :: bs => (i, b) :: enumFrom (i + 1) bs

/-- Embedding of `_burst_slice` (calcShadowLayover.py lines 45-60): defaulting
of the range, validation, then the slice `bursts[start-1:stop]` enumerated
from `start`. -/
def burst_slice (bursts : List α) (burst_range : Option (ℤ × ℤ)) :
    Except PipelineError (List (ℤ × α)) :=
  let n : ℤ := bursts.length
  let se : Except PipelineError (ℤ × ℤ) :=
    match burst_range with
    | none => .ok (1, n)
    | some (start, stop) =>
        if start < 1 ∨ stop < start ∨ stop > n then
          .error (.invalidBurstRange start stop n)
        else .ok (start, stop)
  match se with
  | .error e => .error e
  | .ok (start, stop) =>
      .ok (enumFrom start
        ((bursts.drop (start - 1).toNat).take (stop - (start - 1)).toNat))

/-- The burst-path `GeometryTask` construction (calcShadowLayover.py
lines 136-151). -/
def mkBurstTask (burst_id : ℤ) (b : BurstRecord) : GeometryTask :=
  { label := "burst_" ++ fmt02 burst_id
    tag := fmt02 burst_id
    width := b.numberOfSamples
    length := b.numberOfLines
    range_pixel_spacing := b.rangePixelSize
    prf := 1 / b.azimuthTimeInterval
    radar_wavelength := b.radarWavelength
    orbit := b.orbit
    sensing_start := b.sensingStart
    range_first_sample := b.startingRange
    look_side := -1
    polarization := b.polarization }

/-- The frame-path `GeometryTask` construction (calcShadowLayover.py
lines 163-178). -/
def mkFrameTask (f : FrameRecord) : GeometryTask :=
  { label := "frame"
    tag := "frame"
    width := f.numberOfSamples
    length := f.numberOfLines
    range_pixel_spacing := f.rangePixelSize
    prf := f.pulseRepetitionFrequency
    radar_wavelength := f.radarWavelength
    orbit := f.orbit
    sensing_start := f.sensingStart
    range_first_sample := f.startingRange
    look_side := f.pointingDirection
    polarization := f.polarization }

/-- The in-loop update of `meta["polarization"]` over the sliced bursts
(calcShadowLayover.py lines 132-134): keep the first truthy polarization. -/
def firstPol (pairs : List (ℤ × BurstRecord)) : Option String :=
  pairs.foldl
    (fun acc p =>
      if pyTruthyStr p.2.polarization ∧ ¬ pyTruthyStr acc then p.2.polarization
      else acc)
    none

/-- Embedding of `_prepare_geometry_tasks` (calcShadowLayover.py
lines 118-182). The burst path is taken exactly when the `bursts` attribute is
truthy, i.e. a non-empty list. -/
def prepare_geometry_tasks (reader : Reader)
    (burst_range : Option (ℤ × ℤ)) :
    Except PipelineError (List GeometryTask × Meta) :=
  match reader.bursts with
  | some (b :: bs) =>
      match burst_slice (b :: bs) burst_range with
      | .error e => .error e
      | .ok pairs =>
          .ok (pairs.map (fun p => mkBurstTask p.1 p.2),
               { sensor := reader.family, polarization := firstPol pairs })
  | _ =>
      match reader.frame with
      | some f =>
          .ok ([mkFrameTask f],
               { sensor := reader.family, polarization := f.polarization })
      | none => .error .unsupportedReader

/-- The `_VALID_DEM_METHODS` set (calcShadowLayover.py line 14). -/
def VALID_DEM_METHODS : List String :=
  ["SINC", "BILINEAR", "BICUBIC", "NEAREST", "AKIMA", "BIQUINTIC"]

/-- The descriptor-sidecar path used by both `_load_dem` and `_ensure_dem`:
the path itself when it already ends in `.xml`, else the path with `.xml`
appended. -/
def xmlSidecar (p : String) : String :=
  if strEndsWith p ".xml" then p else p ++ ".xml"

/-- Embedding of `_load_dem` (calcShadowLayover.py lines 35-42); the loaded
image is an opaque handle, the filesystem an `isfile` predicate. -/
def load_dem (isfile : String → Bool) (dem_path : String) :
    Except PipelineError ℕ :=
  let xml_path := xmlSidecar dem_path
  if isfile xml_path then .ok 0 else .error (.demXmlNotFound xml_path)

/-- The flat parameter set wired onto the `topozero` engine object
(calcShadowLayover.py lines 84-105). -/
structure TopoConfig where
  slantRangePixelSpacing : ℚ
  prf : ℚ
  radarWavelength : ℚ
  orbit : ℕ
  width : ℤ
  length : ℤ
  lookSide : ℤ
  sensingStart : ℕ
  rangeFirstSample : ℚ
  numberRangeLooks : ℤ
  numberAzimuthLooks : ℤ
  demInterpolationMethod : String
  latFilename : String
  lonFilename : String
  heightFilename : String
  losFilename : String
  incFilename : String
  maskFilename : String
  dem : ℕ
  planet : ℕ
deriving DecidableEq

/-- The four scalar extrema exposed by the engine after `topo.topo()`
(calcShadowLayover.py lines 109-114). -/
structure TopoExtrema where
  minimumLatitude : ℚ
  maximumLatitude : ℚ
  minimumLongitude : ℚ
  maximumLongitude : ℚ
deriving DecidableEq

/-- One entry of the `outputs` dictionary of `_run_topo_task`:
`os.path.join(outdir, f"{field}_{tag}.rdr")`. -/
def out_field (outdir tag field : String) : String :=
  pathJoin outdir (field ++ "_" ++ tag ++ ".rdr")

/-- The `outputs` dictionary of `_run_topo_task` (calcShadowLayover.py
lines 75-82), as an association list in source order. -/
def topo_output_paths (outdir tag : String) : List (String × String) :=
  [("lat", out_field outdir tag "lat"),
   ("lon", out_field outdir tag "lon"),
   ("hgt", out_field outdir tag "hgt"),
   ("los", out_field outdir tag "los"),
   ("inc", out_field outdir tag "incLocal"),
   ("mask", out_field outdir tag "shadowMask")]

/-- The engine configuration assembled by `_run_topo_task`
(calcShadowLayover.py lines 84-105). -/
def topo_config (task : GeometryTask) (dem_image planet : ℕ)
    (outdir dem_interp : String) : TopoConfig :=
  { slantRangePixelSpacing := task.range_pixel_spacing
    prf := task.prf
    radarWavelength := task.radar_wavelength
    orbit := task.orbit
    width := task.width
    length := task.length
    lookSide := task.look_side
    sensingStart := task.sensing_start
    rangeFirstSample := task.range_first_sample
    numberRangeLooks := 1
    numberAzimuthLooks := 1
    demInterpolationMethod := dem_interp
    latFilename := out_field outdir task.tag "lat"
    lonFilename := out_field outdir task.tag "lon"
    heightFilename := out_field outdir task.tag "hgt"
    losFilename := out_field outdir task.tag "los"
    incFilename := out_field outdir task.tag "incLocal"
    maskFilename := out_field outdir task.tag "shadowMask"
    dem := dem_image
    planet := planet }

/-- Embedding of `_run_topo_task` (calcShadowLayover.py lines 68-115); the
external terrain-intersection engine is the parameter `engine`. -/
def run_topo_task (engine : TopoConfig → TopoExtrema) (task : GeometryTask)
    (dem_image planet : ℕ) (outdir dem_interp : String) : BBox × String :=
  let ex := engine (topo_config task dem_image planet outdir dem_interp)
  ((ex.minimumLatitude, ex.maximumLatitude,
    ex.minimumLongitude, ex.maximumLongitude),
   out_field outdir task.tag "shadowMask")

/-- One element of the `unit_results` list (calcShadowLayover.py
lines 211-218). -/
structure GeometryResult where
  label : String
  mask_path : String
  bbox : BBox
  polarization : Option String
deriving DecidableEq

/-- The dictionary returned by `generate_shadow_layover`
(calcShadowLayover.py lines 230-235). -/
structure SceneResult where
  output_directory : String
  units : List GeometryResult
  overall_bbox : BBox
  metadata : Meta
deriving DecidableEq

/-- The `overall_bbox` computation (calcShadowLayover.py lines 223-228):
min/max over the non-empty list of per-task boxes. -/
def overall_bbox_of (b : BBox) (bs : List BBox) : BBox :=
  ((bs.map (fun x => x.1)).foldl min b.1,
   (bs.map (fun x => x.2.1)).foldl max b.2.1,
   (bs.map (fun x => x.2.2.1)).foldl min b.2.2.1,
   (bs.map (fun x => x.2.2.2)).foldl max b.2.2.2)

/-- The per-task loop of `generate_shadow_layover` (calcShadowLayover.py
lines 208-218): one engine run per task, collected as `unit_results`. -/
def run_units (engine : TopoConfig → TopoExtrema) (dem_image planet : ℕ)
    (output_dir method : String) (tasks : List GeometryTask) :
    List GeometryResult :=
  tasks.map (fun task =>
    let r := run_topo_task engine task dem_image planet output_dir method
    { label := task.label, mask_path := r.2, bbox := r.1,
      polarization := task.polarization })

/-- The tail of `generate_shadow_layover` (calcShadowLayover.py
lines 220-235): the empty-result guard, then the overall bounding box and the
result dictionary. -/
def finish_scene (output_dir : String) (meta : Meta)
    (unit_results : List GeometryResult) :
    Except PipelineError SceneResult :=
  match unit_results with
  | [] => .error .emptyResult
  | u :: us =>
      .ok { output_directory := output_dir
            units := u :: us
            overall_bbox := overall_bbox_of u.bbox (us.map (fun x => x.bbox))
            metadata := meta }

/-- Embedding of `generate_shadow_layover` (calcShadowLayover.py
lines 185-235): interpolation-method validation, DEM descriptor check, task
extraction, one engine run per task, then the empty-result guard and the
overall bounding box. Exception propagation is `Except.bind`; directory
creation is a no-op in the model. -/
def generate_shadow_layover (isfile : String → Bool)
    (engine : TopoConfig → TopoExtrema) (reader : Reader)
    (dem_path output_dir : String) (burst_range : Option (ℤ × ℤ))
    (dem_interp : String) : Except PipelineError SceneResult :=
  if pyUpper dem_interp ∈ VALID_DEM_METHODS then
    (load_dem isfile dem_path).bind (fun dem_image =>
      (prepare_geometry_tasks reader burst_range).bind (fun tm =>
        finish_scene output_dir tm.2
          (run_units engine dem_image 0 output_dir (pyUpper dem_interp)
            tm.1)))
  else .error (.unsupportedInterpolation dem_interp)

/-- Errors raised by `_ensure_dem` (calculate_shadow_layover.py):
`FileNotFoundError` for the missing descriptor, `RuntimeError` for a failed
stitch. -/
inductive DemError
  | demXmlSidecarNotFound (xml_path : String)
  | stitchFailed
deriving DecidableEq

/-- The stitching branch of `_ensure_dem` (calculate_shadow_layover.py
lines 55-72): expand the bbox to `bbox_int`, split into `lat`/`lon`, derive
the canonical name, invoke the stitching collaborator. -/
def ensure_dem_stitch (defaultName : List ℤ → String)
    (stitch : List ℤ → List ℤ → ℤ → String → String → Bool)
    (bbox_snwe : BBox) (dem_dir : String) (source : ℤ) :
    Except DemError String × Bool :=
  let bbox_int := bbox_int_expand bbox_snwe
  let lat := bbox_int.take 2
  let lon := bbox_int.drop 2
  let dem_name := defaultName bbox_int
  if stitch lat lon source dem_name dem_dir then
    (.ok (pathJoin dem_dir dem_name), true)
  else (.error .stitchFailed, true)

/-- Embedding of `_ensure_dem` (calculate_shadow_layover.py lines 41-72).
The filesystem, `os.path.abspath`, the stitcher's `defaultName` and
`stitchDems` are parameters; the second component records whether the
stitching service was invoked. Python's `if existing_dem:` is truthiness, so
`None` and `""` both fall through to stitching. -/
def ensure_dem (isfile : String → Bool) (abspath : String → String)
    (defaultName : List ℤ → String)
    (stitch : List ℤ → List ℤ → ℤ → String → String → Bool)
    (bbox_snwe : BBox) (dem_dir : String) (source : ℤ)
    (existing_dem : Option String) : Except DemError String × Bool :=
  match existing_dem with
  | some e =>
      if e ≠ "" then
        let dem_path := abspath e
        let xml_path := xmlSidecar dem_path
        if isfile xml_path then (.ok dem_path, false)
        else (.error (.demXmlSidecarNotFound xml_path), false)
      else ensure_dem_stitch defaultName stitch bbox_snwe dem_dir source
  | none => ensure_dem_stitch defaultName stitch bbox_snwe dem_dir source

/-- Statements executed at the top level of calculate_shadow_layover.py
(lines 200-208) when the module is imported: only the uncommented ones, i.e.
the assignment of `csk` (line 204) and the call on line 205. -/
inductive TopStmt
  | assign (name : String)
  | call (fn : String)
deriving DecidableEq

/-- The executable top-level statements of calculate_shadow_layover.py
(lines 204-205). -/
def module_top_level : List TopStmt :=
  [.assign "csk", .call "generate_scene_shadow_masks"]

/-- Whether importing the module runs the scene pipeline, i.e. whether a
top-level statement calls `generate_scene_shadow_masks`. -/
def runs_pipeline_on_import : Bool :=
  module_top_level.any fun s =>
    match s with
    | .call f => f = "generate_scene_shadow_masks"
    | _ => false

/-! ### Specification predicates and witness data -/

/-- The C7 conclusion: the six output paths of `_run_topo_task`, keyed in
source order, have the form `<output_dir>/<field>_<tag>.rdr`, the engine
configuration carries exactly those six filenames, and the function returns
the engine's bounding box together with the shadow-mask path. -/
def topo_outputs_spec (engine : TopoConfig → TopoExtrema)
    (task : GeometryTask) (dem_image planet : ℕ)
    (outdir dem_interp : String) : Prop :=
  (topo_output_paths outdir task.tag).map Prod.fst =
    ["lat", "lon", "hgt", "los", "inc", "mask"] ∧
  (topo_output_paths outdir task.tag).map Prod.snd =
    [outdir ++ "/" ++ ("lat" ++ "_" ++ task.tag ++ ".rdr"),
     outdir ++ "/" ++ ("lon" ++ "_" ++ task.tag ++ ".rdr"),
     outdir ++ "/" ++ ("hgt" ++ "_" ++ task.tag ++ ".rdr"),
     outdir ++ "/" ++ ("los" ++ "_" ++ task.tag ++ ".rdr"),
     outdir ++ "/" ++ ("incLocal" ++ "_" ++ task.tag ++ ".rdr"),
     outdir ++ "/" ++ ("shadowMask" ++ "_" ++ task.tag ++ ".rdr")] ∧
  (topo_config task dem_image planet outdir dem_interp).latFilename =
    outdir ++ "/" ++ ("lat" ++ "_" ++ task.tag ++ ".rdr") ∧
  (topo_config task dem_image planet outdir dem_interp).lonFilename =
    outdir ++ "/" ++ ("lon" ++ "_" ++ task.tag ++ ".rdr") ∧
  (topo_config task dem_image planet outdir dem_interp).heightFilename =
    outdir ++ "/" ++ ("hgt" ++ "_" ++ task.tag ++ ".rdr") ∧
  (topo_config task dem_image planet outdir dem_interp).losFilename =
    outdir ++ "/" ++ ("los" ++ "_" ++ task.tag ++ ".rdr") ∧
  (topo_config task dem_image planet outdir dem_interp).incFilename =
    outdir ++ "/" ++ ("incLocal" ++ "_" ++ task.tag ++ ".rdr") ∧
  (topo_config task dem_image planet outdir dem_interp).maskFilename =
    outdir ++ "/" ++ ("shadowMask" ++ "_" ++ task.tag ++ ".rdr") ∧
  run_topo_task engine task dem_image planet outdir dem_interp =
    (((engine (topo_config task dem_image planet outdir dem_interp)
        ).minimumLatitude,
      (engine (topo_config task dem_image planet outdir dem_interp)
        ).maximumLatitude,
      (engine (topo_config task dem_image planet outdir dem_interp)
        ).minimumLongitude,
      (engine (topo_config task dem_image planet outdir dem_interp)
        ).maximumLongitude),
     outdir ++ "/" ++ ("shadowMask" ++ "_" ++ task.tag ++ ".rdr"))

/-- The C8 conclusion: on a reader without a non-empty burst sequence,
extraction yields exactly one `frame`-tagged task whose parameters come from
the whole-frame accessors (`look_side` from the platform pointing direction),
and fails with the unsupported-reader error when there is no frame either. -/
def frame_path_spec (r : Reader) (br : Option (ℤ × ℤ)) : Prop :=
  (∀ f : FrameRecord, r.frame = some f →
    prepare_geometry_tasks r br =
      .ok ([mkFrameTask f],
           { sensor := r.family, polarization := f.polarization }) ∧
    (mkFrameTask f).label = "frame" ∧
    (mkFrameTask f).tag = "frame" ∧
    (mkFrameTask f).look_side = f.pointingDirection ∧
    (mkFrameTask f).width = f.numberOfSamples ∧
    (mkFrameTask f).length = f.numberOfLines ∧
    (mkFrameTask f).prf = f.pulseRepetitionFrequency ∧
    (mkFrameTask f).range_pixel_spacing = f.rangePixelSize ∧
    (mkFrameTask f).radar_wavelength = f.radarWavelength ∧
    (mkFrameTask f).orbit = f.orbit ∧
    (mkFrameTask f).sensing_start = f.sensingStart ∧
    (mkFrameTask f).range_first_sample = f.startingRange) ∧
  (r.frame = none → prepare_geometry_tasks r br = .error .unsupportedReader)

/-- The C2 conclusion for a reader whose product exposes the non-empty burst
list `bs`: with no range every burst yields one task in order, tagged by the
zero-padded 1-based index; a valid range `(start, stop)` yields exactly the
tasks for bursts `start..stop`; the invalid-range error is raised exactly
when `start < 1`, `stop < start` or `stop > N`. -/
def burst_extraction_spec (r : Reader) (bs : List BurstRecord) : Prop :=
  (∃ ts m, prepare_geometry_tasks r none = .ok (ts, m) ∧
    ts.length = bs.length ∧
    (∀ i : ℕ, i < bs.length →
      ts[i]? = (bs[i]?).map (fun b => mkBurstTask (1 + (i : ℤ)) b)) ∧
    (∀ i : ℕ, i < bs.length →
      (ts[i]?).map GeometryTask.tag = some (fmt02 (1 + (i : ℤ))))) ∧
  (∀ start stop : ℤ, 1 ≤ start → start ≤ stop → stop ≤ (bs.length : ℤ) →
    ∃ ts m, prepare_geometry_tasks r (some (start, stop)) = .ok (ts, m) ∧
      (ts.length : ℤ) = stop - start + 1 ∧
      (∀ i : ℕ, (i : ℤ) < stop - start + 1 →
        ts[i]? = (bs[(start - 1).toNat + i]?).map
          (fun b => mkBurstTask (start + (i : ℤ)) b))) ∧
  (∀ start stop : ℤ,
    prepare_geometry_tasks r (some (start, stop)) =
        .error (.invalidBurstRange start stop (bs.length : ℤ)) ↔
      (start < 1 ∨ stop < start ∨ stop > (bs.length : ℤ)))

/-- A filesystem on which no path exists. -/
def noFiles : String → Bool := fun _ => false

/-- A filesystem on which every path exists. -/
def allFiles : String → Bool := fun _ => true

/-- A model of `os.path.abspath` for the witnesses. -/
def sampleAbspath (s : String) : String := "/abs/" ++ s

/-- A constant stitcher `defaultName` for the witnesses. -/
def constName : List ℤ → String := fun _ => "dem.wgs84"

/-- A stitcher that always reports success, for the witnesses. -/
def alwaysStitch : List ℤ → List ℤ → ℤ → String → String → Bool :=
  fun _ _ _ _ _ => true

/-- A sample frame record for the witnesses. -/
def sampleFrame : FrameRecord :=
  { numberOfSamples := 1000
    numberOfLines := 500
    rangePixelSize := 2
    pulseRepetitionFrequency := 1700
    radarWavelength := 3
    orbit := 7
    sensingStart := 8
    startingRange := 800
    pointingDirection := 1
    polarization := some "hh" }

/-- An engine stub returning an all-zero bounding box, for the witnesses. -/
def zeroEngine : TopoConfig → TopoExtrema := fun _ => ⟨0, 0, 0, 0⟩

/-- A frame-only reader for the witnesses. -/
def sampleFrameReader : Reader :=
  { family := some "csk", bursts := none, frame := some sampleFrame }

/-- A reader exposing an empty burst list and no frame. -/
def noShapeReader : Reader :=
  { family := none, bursts := some [], frame := none }

/-- The concrete scene result produced in the C9 witness run. -/
def sampleSceneResult : SceneResult :=
  { output_directory := "out"
    units := [{ label := "frame"
                mask_path := "out/shadowMask_frame.rdr"
                bbox := (0, 0, 0, 0)
                polarization := some "hh" }]
    overall_bbox := (0, 0, 0, 0)
    metadata := { sensor := some "csk", polarization := some "hh" } }

/-- A sample burst for the C2 witness. -/
def sampleBurst1 : BurstRecord :=
  { numberOfSamples := 10
    numberOfLines := 20
    rangePixelSize := 1
    azimuthTimeInterval := 2
    radarWavelength := 5
    orbit := 1
    sensingStart := 2
    startingRange := 7
    polarization := some "vv" }

/-- A second sample burst for the C2 witness. -/
def sampleBurst2 : BurstRecord :=
  { numberOfSamples := 11
    numberOfLines := 21
    rangePixelSize := 1
    azimuthTimeInterval := 2
    radarWavelength := 5
    orbit := 3
    sensingStart := 4
    startingRange := 8
    polarization := none }

/-- A burst-shaped reader with two bursts, for the C2 witness. -/
def sampleBurstReader : Reader :=
  { family := some "SENTINEL1"
    bursts := some [sampleBurst1, sampleBurst2]
    frame := none }

/-! ### Helper lemmas -/

theorem data_append (a b : String) : (a ++ b).data = a.data ++ b.data := by
  cases a; cases b; rfl

theorem str_eq_of_data {a b : String} (h : a.data = b.data) : a = b :=
  congrArg String.mk h

theorem data_head_append (a b : String) (c : Char)
    (h : a.data.head? = some c) : (a ++ b).data.head? = some c := by
  rw [data_append]
  cases ha : a.data with
  | nil => rw [ha] at h; cases h
  | cons x xs => rw [ha] at h; simpa using h

theorem pathJoin_of_ne (d f : String) (h1 : d ≠ "")
    (h2 : d.data.getLast? ≠ some '/') (h3 : f.data.head? ≠ some '/') :
    pathJoin d f = d ++ "/" ++ f := by
  simp [pathJoin, h1, h2, h3]

/-! ### Claim C1 -/

/-- C1: the expand-to-integer-degrees step of `_ensure_dem` does NOT always
round outward. At the box `(south, north, west, east) = (-1/2, 1, 0, 1)` the
code computes `int(south) = 0`, which is strictly greater than
`south = -1/2` (the claimed `floor(south)` would be `-1`), so the expansion
rounds inward on a negative fractional south edge. A second slip: at
`north = 3.00005` the `int(north + 0.9999)` trick yields `3`, strictly below
`north`, where the claimed `ceil(north)` is `4`. -/
theorem C1_expansion_rounds_inward :
    bbox_int_expand (-(1:ℚ)/2, 1, 0, 1) = [0, 1, 0, 1] ∧
    ¬ (((0:ℤ) : ℚ) ≤ -(1:ℚ)/2) ∧
    ⌊(-(1:ℚ)/2)⌋ = -1 ∧
    pyInt ((300005:ℚ)/100000 + 9999/10000) = 3 ∧
    ¬ ((300005:ℚ)/100000 ≤ ((3:ℤ) : ℚ)) ∧
    ⌈(300005:ℚ)/100000⌉ = 4 := by
  refine ⟨?_, by norm_num, by norm_num, ?_, by norm_num, ?_⟩
  · norm_num [bbox_int_expand, pyInt]
  · norm_num [pyInt]
  · rw [Int.ceil_eq_iff]; norm_num

/-! ### Claim C3 -/

/-- C3: merely importing calculate_shadow_layover.py DOES run the scene
pipeline: the module's top level (line 205) contains an uncommented call to
`generate_scene_shadow_masks`, so the pipeline executes as a side effect of
defining the module, contradicting the claim. -/
theorem C3_import_runs_pipeline :
    runs_pipeline_on_import = true ∧
    TopStmt.call "generate_scene_shadow_masks" ∈ module_top_level := by
  exact ⟨by decide, by decide⟩

/-! ### Claim C6 -/

/-- C6: the bounding-box union of `_union_bbox`, viewed as the binary
operation it computes on a two-element list, is commutative, associative and
idempotent. -/
theorem C6_union_comm_assoc_idem :
    (∀ a b : BBox, union_bbox [a, b] = some (bbox_union2 a b)) ∧
    (∀ a b : BBox, bbox_union2 a b = bbox_union2 b a) ∧
    (∀ a b c : BBox,
      bbox_union2 (bbox_union2 a b) c = bbox_union2 a (bbox_union2 b c)) ∧
    (∀ b : BBox, bbox_union2 b b = b) := by
  refine ⟨fun a b => rfl, fun a b => ?_, fun a b c => ?_, fun b => ?_⟩
  · simp [bbox_union2, min_comm, max_comm]
  · simp [bbox_union2, min_assoc, max_assoc]
  · simp [bbox_union2]

/-! ### Claim C5 -/

/-- C5: with a non-empty `existing_dem`, `_ensure_dem` resolves it to an
absolute path, requires the descriptor sidecar to exist, returns the resolved
path unchanged when it does, raises the missing-descriptor error when it does
not, and never invokes the stitching service in either case. -/
theorem C5_existing_dem_descriptor (isfile : String → Bool)
    (abspath : String → String) (defaultName : List ℤ → String)
    (stitch : List ℤ → List ℤ → ℤ → String → String → Bool)
    (bbox_snwe : BBox) (dem_dir : String) (source : ℤ) (e : String)
    (he : e ≠ "") :
    (ensure_dem isfile abspath defaultName stitch bbox_snwe dem_dir source
        (some e)).2 = false ∧
    (isfile (xmlSidecar (abspath e)) = true →
      ensure_dem isfile abspath defaultName stitch bbox_snwe dem_dir source
          (some e) = (.ok (abspath e), false)) ∧
    (isfile (xmlSidecar (abspath e)) = false →
      ensure_dem isfile abspath defaultName stitch bbox_snwe dem_dir source
          (some e) =
        (.error (.demXmlSidecarNotFound (xmlSidecar (abspath e))), false)) := by
  cases hf : isfile (xmlSidecar (abspath e)) <;> simp [ensure_dem, he, hf]

/-- Witness for C5 at a concrete DEM path whose sidecar is absent. -/
theorem C5_existing_dem_descriptor_witness :
    ("dem.tif" : String) ≠ "" ∧
    ((ensure_dem noFiles sampleAbspath constName alwaysStitch (0, 0, 0, 0)
        "demdir" 1 (some "dem.tif")).2 = false ∧
     (noFiles (xmlSidecar (sampleAbspath "dem.tif")) = true →
       ensure_dem noFiles sampleAbspath constName alwaysStitch (0, 0, 0, 0)
           "demdir" 1 (some "dem.tif") =
         (.ok (sampleAbspath "dem.tif"), false)) ∧
     (noFiles (xmlSidecar (sampleAbspath "dem.tif")) = false →
       ensure_dem noFiles sampleAbspath constName alwaysStitch (0, 0, 0, 0)
           "demdir" 1 (some "dem.tif") =
         (.error (.demXmlSidecarNotFound (xmlSidecar (sampleAbspath
            "dem.tif"))), false))) :=
  ⟨by decide,
   C5_existing_dem_descriptor noFiles sampleAbspath constName alwaysStitch
     (0, 0, 0, 0) "demdir" 1 "dem.tif" (by decide)⟩

/-! ### Claim C7 -/

theorem out_field_eq (outdir tag field : String) (h1 : outdir ≠ "")
    (h2 : outdir.data.getLast? ≠ some '/') (c : Char)
    (hc : field.data.head? = some c) (hc2 : c ≠ '/') :
    out_field outdir tag field =
      outdir ++ "/" ++ (field ++ "_" ++ tag ++ ".rdr") := by
  apply pathJoin_of_ne _ _ h1 h2
  have hh : (field ++ "_" ++ tag ++ ".rdr").data.head? = some c :=
    data_head_append _ _ _ (data_head_append _ _ _ (data_head_append _ _ _ hc))
  intro hcon
  rw [hh] at hcon
  exact hc2 (Option.some.inj hcon)

/-- C7: for every task and output directory (not empty, not ending in a
separator), `_run_topo_task` builds the six deterministic output paths
`<output_dir>/<field>_<tag>.rdr` and on success returns the engine's
task-level bounding box with the shadow-mask path. -/
theorem C7_topo_task_outputs (engine : TopoConfig → TopoExtrema)
    (task : GeometryTask) (dem_image planet : ℕ)
    (outdir dem_interp : String) (h1 : outdir ≠ "")
    (h2 : outdir.data.getLast? ≠ some '/') :
    topo_outputs_spec engine task dem_image planet outdir dem_interp := by
  have hlat := out_field_eq outdir task.tag "lat" h1 h2 'l' rfl (by decide)
  have hlon := out_field_eq outdir task.tag "lon" h1 h2 'l' rfl (by decide)
  have hhgt := out_field_eq outdir task.tag "hgt" h1 h2 'h' rfl (by decide)
  have hlos := out_field_eq outdir task.tag "los" h1 h2 'l' rfl (by decide)
  have hinc := out_field_eq outdir task.tag "incLocal" h1 h2 'i' rfl
    (by decide)
  have hmask := out_field_eq outdir task.tag "shadowMask" h1 h2 's' rfl
    (by decide)
  refine ⟨rfl, ?_, ?_, ?_, ?_, ?_, ?_, ?_, ?_⟩
  · simp [topo_output_paths, hlat, hlon, hhgt, hlos, hinc, hmask]
  · simpa [topo_config] using hlat
  · simpa [topo_config] using hlon
  · simpa [topo_config] using hhgt
  · simpa [topo_config] using hlos
  · simpa [topo_config] using hinc
  · simpa [topo_config] using hmask
  · simp [run_topo_task, hmask]

/-- Witness for C7 at a concrete task and output directory. -/
theorem C7_topo_task_outputs_witness :
    ("out" : String) ≠ "" ∧ ("out" : String).data.getLast? ≠ some '/' ∧
    topo_outputs_spec zeroEngine (mkFrameTask sampleFrame) 0 0 "out"
      "BIQUINTIC" :=
  ⟨by decide, by decide,
   C7_topo_task_outputs zeroEngine (mkFrameTask sampleFrame) 0 0 "out"
     "BIQUINTIC" (by decide) (by decide)⟩

/-! ### Claim C8 -/

/-- C8: for every reader exposing no non-empty burst sequence,
`_prepare_geometry_tasks` takes the frame path: one task labelled and tagged
`frame` built from the frame accessors, or the unsupported-reader error when
no frame exists. -/
theorem C8_frame_path (r : Reader) (br : Option (ℤ × ℤ))
    (h : r.bursts = none ∨ r.bursts = some []) : frame_path_spec r br := by
  unfold frame_path_spec
  rcases h with h | h <;>
  · constructor
    · intro f hf
      refine ⟨?_, rfl, rfl, rfl, rfl, rfl, rfl, rfl, rfl, rfl, rfl, rfl⟩
      simp [prepare_geometry_tasks, h, hf]
    · intro hf
      simp [prepare_geometry_tasks, h, hf]

/-- Witness for C8 at a concrete frame-only reader. -/
theorem C8_frame_path_witness :
    (sampleFrameReader.bursts = none ∨ sampleFrameReader.bursts = some []) ∧
    frame_path_spec sampleFrameReader none :=
  ⟨Or.inl rfl, C8_frame_path sampleFrameReader none (Or.inl rfl)⟩

/-! ### Claim C10 -/

/-- C10: a reader whose `bursts` attribute is an empty sequence is treated
exactly like one with no bursts at all: extraction falls through to the frame
path, errors with the unsupported-reader error when there is no frame, and
never returns an empty task list. -/
theorem C10_empty_bursts_fall_through (r : Reader) (br : Option (ℤ × ℤ))
    (h : r.bursts = some []) :
    prepare_geometry_tasks r br =
      prepare_geometry_tasks { r with bursts := none } br ∧
    (r.frame = none →
      prepare_geometry_tasks r br = .error .unsupportedReader) ∧
    (∀ ts m, prepare_geometry_tasks r br = .ok (ts, m) → ts ≠ []) := by
  refine ⟨?_, ?_, ?_⟩
  · simp [prepare_geometry_tasks, h]
  · intro hf
    simp [prepare_geometry_tasks, h, hf]
  · intro ts m hok
    rcases hfr : r.frame with _ | f
    · simp [prepare_geometry_tasks, h, hfr] at hok
    · simp [prepare_geometry_tasks, h, hfr] at hok
      rcases hok with ⟨hts, _⟩
      subst hts
      simp

/-- Witness for C10 at a concrete reader with empty bursts and no frame. -/
theorem C10_empty_bursts_fall_through_witness :
    noShapeReader.bursts = some [] ∧
    (prepare_geometry_tasks noShapeReader none =
       prepare_geometry_tasks { noShapeReader with bursts := none } none ∧
     (noShapeReader.frame = none →
       prepare_geometry_tasks noShapeReader none =
         .error .unsupportedReader) ∧
     (∀ ts m, prepare_geometry_tasks noShapeReader none = .ok (ts, m) →
       ts ≠ [])) :=
  ⟨rfl, C10_empty_bursts_fall_through noShapeReader none rfl⟩

/-! ### Claims C4 and C9 -/

theorem except_bind_ok (a : α) (f : α → Except ε β) :
    Except.bind (Except.ok a) f = f a := rfl

theorem except_bind_error (e : ε) (f : α → Except ε β) :
    Except.bind (Except.error e) f = Except.error e := rfl

theorem burst_slice_error_shape (bs : List α) (br : Option (ℤ × ℤ))
    (e : PipelineError) (h : burst_slice bs br = .error e) :
    ∃ a b c, e = .invalidBurstRange a b c := by
  rcases br with _ | ⟨s, t⟩
  · simp [burst_slice] at h
  · by_cases hc : s < 1 ∨ t < s ∨ t > (bs.length : ℤ)
    · simp [burst_slice, hc] at h
      exact ⟨s, t, bs.length, h.symm⟩
    · simp [burst_slice, hc] at h

theorem prepare_error_shape (r : Reader) (br : Option (ℤ × ℤ))
    (e : PipelineError) (h : prepare_geometry_tasks r br = .error e) :
    e = .unsupportedReader ∨ ∃ a b c, e = .invalidBurstRange a b c := by
  unfold prepare_geometry_tasks at h
  rcases hb : r.bursts with _ | bs <;> rw [hb] at h
  · rcases hf : r.frame with _ | f <;> rw [hf] at h <;> simp at h
    exact Or.inl h.symm
  · rcases bs with _ | ⟨b, bs⟩
    · rcases hf : r.frame with _ | f <;> rw [hf] at h <;> simp at h
      exact Or.inl h.symm
    · rcases hs : burst_slice (b :: bs) br with es | pairs <;> simp [hs] at h
      cases h
      exact Or.inr (burst_slice_error_shape _ _ _ hs)

theorem load_dem_error_shape (isfile : String → Bool) (p : String)
    (e : PipelineError) (h : load_dem isfile p = .error e) :
    ∃ x, e = .demXmlNotFound x := by
  simp only [load_dem] at h
  cases hf : isfile (xmlSidecar p) <;> simp [hf] at h
  exact ⟨xmlSidecar p, h.symm⟩

theorem finish_scene_error_shape (output_dir : String) (meta : Meta)
    (units : List GeometryResult) (e : PipelineError)
    (h : finish_scene output_dir meta units = .error e) : e = .emptyResult := by
  cases units <;> simp [finish_scene] at h
  exact h.symm

theorem finish_scene_ok_units (output_dir : String) (meta : Meta)
    (units : List GeometryResult) (res : SceneResult)
    (h : finish_scene output_dir meta units = .ok res) :
    res.units = units ∧ units ≠ [] := by
  cases units with
  | nil => simp [finish_scene] at h
  | cons u us =>
      simp only [finish_scene] at h
      have h3 := Except.ok.inj h
      subst h3
      exact ⟨rfl, by simp⟩

/-- C4: `generate_shadow_layover` rejects `dem_interp` with the
unsupported-interpolation error exactly when its upper-casing is outside the
valid-methods set; `"biquintic"` is accepted and behaves exactly like the
normalized `"BIQUINTIC"`, while `"LANCZOS"` is rejected. -/
theorem C4_dem_interp_validation (isfile : String → Bool)
    (engine : TopoConfig → TopoExtrema) (reader : Reader)
    (dem_path output_dir : String) (br : Option (ℤ × ℤ)) (s : String) :
    (generate_shadow_layover isfile engine reader dem_path output_dir br s =
        .error (.unsupportedInterpolation s) ↔
      pyUpper s ∉ VALID_DEM_METHODS) ∧
    generate_shadow_layover isfile engine reader dem_path output_dir br
        "biquintic" =
      generate_shadow_layover isfile engine reader dem_path output_dir br
        "BIQUINTIC" ∧
    generate_shadow_layover isfile engine reader dem_path output_dir br
        "LANCZOS" =
      .error (.unsupportedInterpolation "LANCZOS") ∧
    pyUpper "biquintic" = "BIQUINTIC" ∧
    "BIQUINTIC" ∈ VALID_DEM_METHODS := by
  refine ⟨⟨?_, ?_⟩, rfl, rfl, rfl, by decide⟩
  · intro h hmem
    simp only [generate_shadow_layover] at h
    rw [if_pos hmem] at h
    rcases hld : load_dem isfile dem_path with eld | dimg <;>
      rw [hld] at h
    · rw [except_bind_error] at h
      obtain ⟨x, hx⟩ := load_dem_error_shape _ _ _ hld
      subst hx
      simp at h
    · rw [except_bind_ok] at h
      rcases hp : prepare_geometry_tasks reader br with ep | tm <;>
        rw [hp] at h
      · rw [except_bind_error] at h
        rcases prepare_error_shape _ _ _ hp with h1 | ⟨a, b, c, h1⟩ <;>
          subst h1 <;> simp at h
      · rw [except_bind_ok] at h
        have h2 := finish_scene_error_shape _ _ _ _ h
        cases h2
  · intro h
    simp only [generate_shadow_layover]
    rw [if_neg h]

/-- C9: whenever `generate_shadow_layover` returns a result rather than
raising, the result's unit list is non-empty. -/
theorem C9_nonempty_units (isfile : String → Bool)
    (engine : TopoConfig → TopoExtrema) (reader : Reader)
    (dem_path output_dir : String) (br : Option (ℤ × ℤ))
    (dem_interp : String) (res : SceneResult)
    (h : generate_shadow_layover isfile engine reader dem_path output_dir br
      dem_interp = .ok res) : res.units ≠ [] := by
  simp only [generate_shadow_layover] at h
  by_cases hmem : pyUpper dem_interp ∈ VALID_DEM_METHODS
  · rw [if_pos hmem] at h
    rcases hld : load_dem isfile dem_path with eld | dimg <;> rw [hld] at h
    · rw [except_bind_error] at h; cases h
    · rw [except_bind_ok] at h
      rcases hp : prepare_geometry_tasks reader br with ep | tm <;>
        rw [hp] at h
      · rw [except_bind_error] at h; cases h
      · rw [except_bind_ok] at h
        obtain ⟨hu, hne⟩ := finish_scene_ok_units _ _ _ _ h
        rw [hu]
        exact hne
  · rw [if_neg hmem] at h
    cases h

/-- Witness for C9: a concrete successful run returning one frame unit. -/
theorem C9_nonempty_units_witness :
    generate_shadow_layover allFiles zeroEngine sampleFrameReader "dem" "out"
        none "BIQUINTIC" = .ok sampleSceneResult ∧
    sampleSceneResult.units ≠ [] :=
  ⟨rfl,
   C9_nonempty_units allFiles zeroEngine sampleFrameReader "dem" "out" none
     "BIQUINTIC" sampleSceneResult rfl⟩

/-! ### Claim C2 -/

theorem enumFrom_length (i : ℤ) (l : List α) :
    (enumFrom i l).length = l.length := by
  induction l generalizing i with
  | nil => rfl
  | cons b t ih => simp [enumFrom, ih]

theorem enumFrom_getElem? (l : List α) (i : ℤ) (j : ℕ) :
    (enumFrom i l)[j]? = (l[j]?).map (fun a => (i + (j : ℤ), a)) := by
  induction l generalizing i j with
  | nil => simp [enumFrom]
  | cons b t ih =>
      cases j with
      | zero => simp [enumFrom]
      | succ k =>
          have hfun : (fun a : α => (i + 1 + (k : ℤ), a)) =
              (fun a : α => (i + ((k + 1 : ℕ) : ℤ), a)) := by
            funext a
            have : i + 1 + (k : ℤ) = i + ((k + 1 : ℕ) : ℤ) := by
              push_cast
              ring
            rw [this]
          simp only [enumFrom, List.getElem?_cons_succ, ih (i + 1) k, hfun]

theorem burst_slice_none (bs : List α) :
    burst_slice bs none = .ok (enumFrom 1 bs) := by
  have h0 : ((1 : ℤ) - 1).toNat = 0 := rfl
  have h1 : (((bs.length : ℤ)) - (1 - 1)).toNat = bs.length := by omega
  simp [burst_slice, h0, h1]

theorem burst_slice_valid (bs : List α) (start stop : ℤ) (h1 : 1 ≤ start)
    (h2 : start ≤ stop) (h3 : stop ≤ (bs.length : ℤ)) :
    burst_slice bs (some (start, stop)) =
      .ok (enumFrom start
        ((bs.drop (start - 1).toNat).take (stop - (start - 1)).toNat)) := by
  have hc : ¬ (start < 1 ∨ stop < start ∨ stop > (bs.length : ℤ)) := by omega
  simp [burst_slice, hc]

theorem burst_slice_invalid (bs : List α) (start stop : ℤ)
    (hc : start < 1 ∨ stop < start ∨ stop > (bs.length : ℤ)) :
    burst_slice bs (some (start, stop)) =
      .error (.invalidBurstRange start stop (bs.length : ℤ)) := by
  simp [burst_slice, hc]

theorem prepare_burst_ok (r : Reader) (b : BurstRecord)
    (t : List BurstRecord) (hr : r.bursts = some (b :: t))
    (br : Option (ℤ × ℤ)) (pairs : List (ℤ × BurstRecord))
    (hs : burst_slice (b :: t) br = .ok pairs) :
    prepare_geometry_tasks r br =
      .ok (pairs.map (fun p => mkBurstTask p.1 p.2),
           { sensor := r.family, polarization := firstPol pairs }) := by
  unfold prepare_geometry_tasks
  rw [hr]
  simp [hs]

theorem prepare_burst_error (r : Reader) (b : BurstRecord)
    (t : List BurstRecord) (hr : r.bursts = some (b :: t))
    (br : Option (ℤ × ℤ)) (e : PipelineError)
    (hs : burst_slice (b :: t) br = .error e) :
    prepare_geometry_tasks r br = .error e := by
  unfold prepare_geometry_tasks
  rw [hr]
  simp [hs]

/-- C2: burst-path extraction — all bursts with `burst_range = None`, exactly
the requested inclusive 1-based range otherwise, and the invalid-range error
precisely on out-of-bounds ranges. -/
theorem C2_burst_range_extraction (r : Reader) (bs : List BurstRecord)
    (hr : r.bursts = some bs) (hne : bs ≠ []) :
    burst_extraction_spec r bs := by
  obtain ⟨b, t, rfl⟩ := List.exists_cons_of_ne_nil hne
  refine ⟨?_, ?_, ?_⟩
  · have hs := burst_slice_none (b :: t)
    refine ⟨_, _, prepare_burst_ok r b t hr none _ hs, ?_, ?_, ?_⟩
    · simp [enumFrom_length]
    · intro i hi
      rw [List.getElem?_map, enumFrom_getElem?]
      cases hbi : (b :: t)[i]? with
      | none => simp
      | some a => simp
    · intro i hi
      rw [List.getElem?_map, enumFrom_getElem?,
        List.getElem?_eq_getElem hi]
      simp [mkBurstTask]
  · intro start stop h1 h2 h3
    have hs := burst_slice_valid (b :: t) start stop h1 h2 h3
    refine ⟨_, _, prepare_burst_ok r b t hr _ _ hs, ?_, ?_⟩
    · simp only [List.length_map, enumFrom_length, List.length_take,
        List.length_drop]
      have hlen : ((b :: t).length : ℤ) = (t.length : ℤ) + 1 := by
        simp
      omega
    · intro i hi
      rw [List.getElem?_map, enumFrom_getElem?]
      have hslice :
          ((List.take (stop - (start - 1)).toNat
            (List.drop (start - 1).toNat (b :: t))))[i]? =
            (b :: t)[(start - 1).toNat + i]? := by
        rw [List.getElem?_take,
          if_pos (show i < (stop - (start - 1)).toNat by omega),
          List.getElem?_drop]
      rw [hslice]
      cases hbi : (b :: t)[(start - 1).toNat + i]? with
      | none => simp
      | some a => simp
  · intro start stop
    constructor
    · intro h
      by_contra hc
      push_neg at hc
      have hs := burst_slice_valid (b :: t) start stop (by omega) (by omega)
        (by omega)
      rw [prepare_burst_ok r b t hr _ _ hs] at h
      cases h
    · intro hc
      exact prepare_burst_error r b t hr _ _
        (burst_slice_invalid (b :: t) start stop hc)

/-- Witness for C2 at a concrete two-burst reader. -/
theorem C2_burst_range_extraction_witness :
    sampleBurstReader.bursts = some [sampleBurst1, sampleBurst2] ∧
    ([sampleBurst1, sampleBurst2] : List BurstRecord) ≠ [] ∧
    burst_extraction_spec sampleBurstReader [sampleBurst1, sampleBurst2] :=
  ⟨rfl, by simp,
   C2_burst_range_extraction sampleBurstReader [sampleBurst1, sampleBurst2]
     rfl (by simp)⟩

end ShadowLayover
